import Mathlib

/-!
Verification of the dynamic Docker routing core (src/index.js): the
event-driven discovery pipeline that fills a name → target registry, and
the HTTP / WebSocket router that consults it.

The embedding is shallow: JavaScript objects become structures, the
`db` Map becomes a function `String → Option ServiceRecord`, the event
handler becomes a pure state transformer `processEvent`, and the two
request handlers become pure functions from registry and request data to
an outcome describing the response the code emits.  JS falsiness of the
relevant values (absent field, empty string, the number 0, NaN) is
modelled explicitly at each check the source performs.
-/

namespace Nexus

/-- One entry of `containerInfo.NetworkSettings.Networks` (only the field
the code reads).  `none` models an absent `IPAddress` field. -/
structure NetworkInfo where
  IPAddress : Option String
deriving DecidableEq

/-- The parts of a `container.inspect()` result the handler reads:
`Name`, `NetworkSettings.Networks` (values in metadata-declared order;
`none` models an absent mapping) and `Config.ExposedPorts` (keys in
metadata-declared order; `none` models an absent mapping, which the code
defaults to the empty object). -/
structure ContainerInfo where
  Name : String
  Networks : Option (List NetworkInfo)
  ExposedPorts : Option (List String)
deriving DecidableEq

/-- A parsed Docker event: `Type`, `Action`, `Actor.ID`.  (`Typ` stands
for the source field `Type`, a Lean keyword.)  `ActorID = none` models an
absent `Actor.ID`. -/
structure RuntimeEvent where
  Typ : String
  Action : String
  ActorID : Option String
deriving DecidableEq

/-- The record `db.set` stores:
`\x7b containerName, ipAddress, defaultPort, target \x7d`. -/
structure ServiceRecord where
  containerName : String
  ipAddress : String
  defaultPort : Nat
  target : String
deriving DecidableEq

/-- The `db` Map, as a lookup function. -/
abbrev Registry := String → Option ServiceRecord

def regEmpty : Registry := fun _ => none

/-- `db.set name r` (upsert, overwrite on conflict). -/
def regSet (db : Registry) (name : String) (r : ServiceRecord) : Registry :=
  fun k => if k = name then some r else db k

/-- `db.get name` / `db.has name`. -/
def regGet (db : Registry) (name : String) : Option ServiceRecord :=
  db name

/-- `containerInfo.Name.startsWith('/') ? containerInfo.Name.slice(1) : containerInfo.Name`. -/
def stripLeadingSlash (name : String) : String :=
  match name.data with
  | '/' :: rest => String.mk rest
  | _ => name

/-- Truthiness of `firstNetwork.IPAddress`: present and non-empty. -/
def carriesIP (n : NetworkInfo) : Bool :=
  match n.IPAddress with
  | some s => s != ""
  | none => false

/-- The IP-selection block: `if (networks)` then take
`Object.values(networks)[0]` and use its `IPAddress` when truthy; the
result is the value of `ipAddress` after the block (`none` = still null). -/
def firstNetworkIP : Option (List NetworkInfo) → Option String
  | some (n :: _) =>
    match n.IPAddress with
    | some s => if s = "" then none else some s
    | none => none
  | _ => none

/-- The characters of `s` strictly before character `c`
(`s.split(c)[0]`). -/
def strBeforeChar (c : Char) (s : String) : String :=
  String.mk (s.data.takeWhile (fun a => a != c))

/-- Whether string `s` ends with `suf` (`s.endsWith(suf)`). -/
def strEndsWith (s suf : String) : Bool :=
  suf.data.isSuffixOf s.data

/-- `parseInt(s, 10)` on a port-key prefix: the leading run of decimal
digits as a number, `none` when there is none (NaN). -/
def parseDigits (s : String) : Option Nat :=
  let ds := s.data.takeWhile Char.isDigit
  if ds.isEmpty then none
  else some (ds.foldl (fun a c => a * 10 + (c.toNat - 48)) 0)

/-- `parseInt(portKey.split('/')[0], 10)` for one exposed-ports key. -/
def portKeyNum (k : String) : Option Nat :=
  parseDigits (strBeforeChar '/' k)

/-- The port-selection block: `defaultPort` after it ran (`none` = still
null: no key ends in `/tcp`, or the chosen key's prefix is NaN). -/
def selectPort (ports : List String) : Option Nat :=
  if ports.contains "80/tcp" then some 80
  else
    match ports.find? (fun k => strEndsWith k "/tcp") with
    | some k => portKeyNum k
    | none => none

/-- The pure resolution core applied to one inspection result: name
stripping, IP selection, port selection, and the early `return`s on
`!ipAddress` and `!defaultPort` (the latter also rejects port 0, falsy in
JS).  `some r` means the handler reaches `db.set`. -/
def resolveInfo (info : ContainerInfo) : Option ServiceRecord :=
  match firstNetworkIP info.Networks with
  | none => none
  | some ip =>
    match selectPort (info.ExposedPorts.getD []) with
    | none => none
    | some p =>
      if p = 0 then none
      else
        some ⟨stripLeadingSlash info.Name, ip, p,
              "http://" ++ ip ++ ":" ++ Nat.repr p⟩

/-- One pass of the `stream.on('data')` handler up to (not including)
`db.set`: the type/action filter, the `!containerId` guard, the
`container.inspect()` call (`inspect cid = none` models a failed call),
and `resolveInfo`.  `none` means the handler returns without touching
`db`. -/
def resolveEvent (inspect : String → Option ContainerInfo)
    (ev : RuntimeEvent) : Option ServiceRecord :=
  if ev.Typ = "container" ∧ ev.Action = "start" then
    match ev.ActorID with
    | none => none
    | some cid =>
      if cid = "" then none
      else
        match inspect cid with
        | none => none
        | some info => resolveInfo info
  else none

/-- The full effect of one event on the registry: `db.set` on success,
`db` unchanged on every other path. -/
def processEvent (inspect : String → Option ContainerInfo)
    (ev : RuntimeEvent) (db : Registry) : Registry :=
  match resolveEvent inspect ev with
  | none => db
  | some r => regSet db r.containerName r

/-- A whole event sequence, each event with the inspection results in
force when it is handled. -/
def processEvents
    (steps : List ((String → Option ContainerInfo) × RuntimeEvent))
    (db : Registry) : Registry :=
  steps.foldl (fun d s => processEvent s.1 s.2 d) db

/-- `hostname.split('.')[0]`. -/
def firstLabel (host : String) : String :=
  strBeforeChar '.' host

/-- A response body the HTTP listener can produce: a JSON object with a
`status` and a `message` field (`res.json`), or plain text (`res.send`
with a string). -/
inductive HttpBody where
  | json (status message : String)
  | text (s : String)
deriving DecidableEq

/-- Outcome of `reverseProxyApp.use` for one request, by source branch:
404 container not found, 500 invalid target, forwarding attempted and the
backend failed (the `proxy.web` error callback), or forwarded to the
target (response then mirrors the backend). -/
inductive RouteResult where
  | notFound
  | invalidTarget
  | badGateway
  | forwarded (target : String)
deriving DecidableEq

/-- The HTTP status the listener itself sets in each branch (`none` for a
successful forward: the status mirrors the backend). -/
def RouteResult.statusCode : RouteResult → Option Nat
  | .notFound => some 404
  | .invalidTarget => some 500
  | .badGateway => some 502
  | .forwarded _ => none

/-- The body the listener itself sends in each branch. -/
def RouteResult.responseBody : RouteResult → Option HttpBody
  | .notFound => some (.json "error" "Container not found")
  | .invalidTarget => some (.json "error" "Invalid target configuration")
  | .badGateway => some (.text "Bad gateway.")
  | .forwarded _ => none

/-- Whether a produced body is a JSON object of the error shape
(status field "error", any message string). -/
def isJsonErrorBody : Option HttpBody → Bool
  | some (.json "error" _) => true
  | _ => false

/-- The `reverseProxyApp.use` handler: derive the subdomain from the
request hostname, look it up, reject on absence or falsy target,
otherwise hand to `proxy.web`.  `backendOk` says whether that proxying
succeeds (`false` drives the error callback). -/
def handleHttp (db : Registry) (hostname : String) (backendOk : Bool) :
    RouteResult :=
  let subdomain := firstLabel hostname
  match regGet db subdomain with
  | none => .notFound
  | some r =>
    if r.target = "" then .invalidTarget
    else if backendOk then .forwarded r.target
    else .badGateway

/-- Outcome of the `upgrade` handler for one request: an HTTP error line
written to the socket before it is closed (`socket.end(line)`), or the
socket handed to `proxy.ws` for the target. -/
inductive UpgradeResult where
  | errLine (line : String)
  | proxiedWS (target : String)
deriving DecidableEq

/-- The `reverseProxyServer.on('upgrade')` handler.  `host` is
`req.headers.host` (`none` = absent); `backendOk` says whether `proxy.ws`
succeeds (`false` drives its error callback, which also ends the socket
with a 502 line). -/
def handleUpgrade (db : Registry) (host : Option String)
    (backendOk : Bool) : UpgradeResult :=
  match host with
  | none => .errLine "HTTP/1.1 400 Bad Request\r\n\r\n"
  | some h =>
    if h = "" then .errLine "HTTP/1.1 400 Bad Request\r\n\r\n"
    else
      let subdomain := firstLabel h
      match regGet db subdomain with
      | none => .errLine "HTTP/1.1 404 Not Found\r\n\r\n"
      | some r =>
        if r.target = "" then .errLine "HTTP/1.1 502 Bad Gateway\r\n\r\n"
        else if backendOk then .proxiedWS r.target
        else .errLine "HTTP/1.1 502 Bad Gateway\r\n\r\n"

/-- Registry states reachable through discovery alone: empty at start,
then any number of processed events. -/
inductive Reachable : Registry → Prop where
  | base : Reachable regEmpty
  | step {db : Registry} (inspect : String → Option ContainerInfo)
      (ev : RuntimeEvent) : Reachable db →
      Reachable (processEvent inspect ev db)

/-! ## Concrete fixtures (inputs of the spec scenarios and of the
counterexamples) -/

/-- Inspection result of the spec's concrete scenario: Name "/web1", one
network with IP 10.0.0.5, exposed ports 80/tcp and 8080/tcp. -/
def infoWeb1 : ContainerInfo :=
  ⟨"/web1", some [⟨some "10.0.0.5"⟩], some ["80/tcp", "8080/tcp"]⟩

def evStart1 : RuntimeEvent := ⟨"container", "start", some "c1"⟩

def inspectWeb1 : String → Option ContainerInfo :=
  fun cid => if cid = "c1" then some infoWeb1 else none

def recWeb1 : ServiceRecord := ⟨"web1", "10.0.0.5", 80, "http://10.0.0.5:80"⟩

def dbWeb1 : Registry := regSet regEmpty "web1" recWeb1

/-- A second start event deriving the same name web1 from a different
container, with a different IP and port. -/
def infoWeb1b : ContainerInfo :=
  ⟨"/web1", some [⟨some "10.0.0.9"⟩], some ["8080/tcp"]⟩

def evStart2 : RuntimeEvent := ⟨"container", "start", some "c2"⟩

def inspectWeb1b : String → Option ContainerInfo :=
  fun cid => if cid = "c2" then some infoWeb1b else none

def recWeb1b : ServiceRecord :=
  ⟨"web1", "10.0.0.9", 8080, "http://10.0.0.9:8080"⟩

/-- Inspection result whose only exposed TCP port key is "0/tcp": its
numeric prefix 0 is falsy in JS. -/
def infoZeroPort : ContainerInfo :=
  ⟨"/web0", some [⟨some "10.0.0.5"⟩], some ["0/tcp"]⟩

def evStart0 : RuntimeEvent := ⟨"container", "start", some "c0"⟩

def inspectZeroPort : String → Option ContainerInfo :=
  fun cid => if cid = "c0" then some infoZeroPort else none

/-- A network list whose first network has no IP but whose second one
does. -/
def netsSecondIP : List NetworkInfo := [⟨none⟩, ⟨some "10.0.0.5"⟩]

def infoSecondIP : ContainerInfo :=
  ⟨"/web2", some netsSecondIP, some ["80/tcp"]⟩

def evStart3 : RuntimeEvent := ⟨"container", "start", some "c3"⟩

def inspectSecondIP : String → Option ContainerInfo :=
  fun cid => if cid = "c3" then some infoSecondIP else none

def evStop : RuntimeEvent := ⟨"container", "stop", some "c1"⟩

def inspectNone : String → Option ContainerInfo := fun _ => none

/-! ## Helper lemmas -/

theorem regGet_regSet_self (db : Registry) (n : String) (r : ServiceRecord) :
    regGet (regSet db n r) n = some r := by
  simp [regGet, regSet]

theorem regGet_regSet_ne (db : Registry) (n k : String) (r : ServiceRecord)
    (h : k ≠ n) : regGet (regSet db n r) k = regGet db k := by
  simp [regGet, regSet, h]

theorem processEvent_of_resolve_none (inspect : String → Option ContainerInfo)
    (ev : RuntimeEvent) (db : Registry) (h : resolveEvent inspect ev = none) :
    processEvent inspect ev db = db := by
  simp [processEvent, h]

theorem processEvent_of_resolve_some (inspect : String → Option ContainerInfo)
    (ev : RuntimeEvent) (db : Registry) (r : ServiceRecord)
    (h : resolveEvent inspect ev = some r) :
    processEvent inspect ev db = regSet db r.containerName r := by
  simp [processEvent, h]

/-- Inversion of a successful resolution: it pins down every field of the
stored record from the intermediate IP and port. -/
theorem resolveInfo_some_elim {info : ContainerInfo} {r : ServiceRecord}
    (h : resolveInfo info = some r) :
    ∃ ip p, firstNetworkIP info.Networks = some ip ∧
      selectPort (info.ExposedPorts.getD []) = some p ∧ p ≠ 0 ∧
      r = ⟨stripLeadingSlash info.Name, ip, p,
           "http://" ++ ip ++ ":" ++ Nat.repr p⟩ := by
  unfold resolveInfo at h
  split at h
  · exact absurd h (by simp)
  next ip hip =>
    split at h
    · exact absurd h (by simp)
    next p hp =>
      split at h
      · exact absurd h (by simp)
      next h0 =>
        exact ⟨ip, p, hip, hp, h0, (Option.some.inj h).symm⟩

/-- Inversion of a successful event pass. -/
theorem resolveEvent_some_elim {inspect : String → Option ContainerInfo}
    {ev : RuntimeEvent} {r : ServiceRecord}
    (h : resolveEvent inspect ev = some r) :
    ev.Typ = "container" ∧ ev.Action = "start" ∧
    ∃ cid info, ev.ActorID = some cid ∧ cid ≠ "" ∧
      inspect cid = some info ∧ resolveInfo info = some r := by
  unfold resolveEvent at h
  split at h
  case isFalse => exact absurd h (by simp)
  case isTrue hstart =>
    refine ⟨hstart.1, hstart.2, ?_⟩
    split at h
    · exact absurd h (by simp)
    next cid hid =>
      by_cases hcid : cid = ""
      · rw [if_pos hcid] at h; exact absurd h (by simp)
      · rw [if_neg hcid] at h
        split at h
        · exact absurd h (by simp)
        next info hins => exact ⟨cid, info, hid, hcid, hins, h⟩

/-- Forward direction: building a successful resolution from its parts. -/
theorem resolveEvent_some_intro (inspect : String → Option ContainerInfo)
    (ev : RuntimeEvent) (cid : String) (info : ContainerInfo)
    (r : ServiceRecord)
    (hT : ev.Typ = "container") (hA : ev.Action = "start")
    (hid : ev.ActorID = some cid) (hcid : cid ≠ "")
    (hins : inspect cid = some info) (hres : resolveInfo info = some r) :
    resolveEvent inspect ev = some r := by
  unfold resolveEvent
  rw [if_pos ⟨hT, hA⟩, hid]
  simp only [if_neg hcid, hins, hres]

theorem append_ne_empty_left (a b : String) (h : a ≠ "") : a ++ b ≠ "" := by
  intro hc
  apply h
  cases a with
  | mk da =>
    cases b with
    | mk db =>
      have : da ++ db = ([] : List Char) := congrArg String.data hc
      rcases List.append_eq_nil.mp this with ⟨h1, _⟩
      exact congrArg String.mk h1

/-- Every stored target has the literal shape the source builds. -/
theorem resolveEvent_target_shape {inspect : String → Option ContainerInfo}
    {ev : RuntimeEvent} {r : ServiceRecord}
    (h : resolveEvent inspect ev = some r) :
    r.target = "http://" ++ r.ipAddress ++ ":" ++ Nat.repr r.defaultPort ∧
    r.target ≠ "" := by
  obtain ⟨-, -, cid, info, -, -, -, hres⟩ := resolveEvent_some_elim h
  obtain ⟨ip, p, -, -, -, rfl⟩ := resolveInfo_some_elim hres
  refine ⟨rfl, ?_⟩
  exact append_ne_empty_left _ _
    (append_ne_empty_left _ _
      (append_ne_empty_left _ _ (by decide)))

theorem resolveInfo_none_of_no_ip (info : ContainerInfo)
    (h : firstNetworkIP info.Networks = none) : resolveInfo info = none := by
  unfold resolveInfo
  rw [h]

theorem resolveInfo_none_of_no_port (info : ContainerInfo)
    (h : selectPort (info.ExposedPorts.getD []) = none ∨
         selectPort (info.ExposedPorts.getD []) = some 0) :
    resolveInfo info = none := by
  unfold resolveInfo
  cases hip : firstNetworkIP info.Networks with
  | none => rfl
  | some ip =>
    cases h with
    | inl h1 => rw [h1]
    | inr h1 => rw [h1]; simp

/-- The registry invariant C10 rests on, for every reachable state. -/
theorem reachable_target_shape {db : Registry} (h : Reachable db) :
    ∀ n r, regGet db n = some r →
      r.target = "http://" ++ r.ipAddress ++ ":" ++ Nat.repr r.defaultPort ∧
      r.target ≠ "" := by
  induction h with
  | base => intro n r hr; exact absurd hr (by simp [regGet, regEmpty])
  | step inspect ev _ ih =>
    intro n r hr
    rename_i db' _
    unfold processEvent at hr
    cases hres : resolveEvent inspect ev with
    | none => rw [hres] at hr; exact ih n r hr
    | some r' =>
      rw [hres] at hr
      by_cases hn : n = r'.containerName
      · rw [hn, regGet_regSet_self] at hr
        cases Option.some.inj hr
        exact resolveEvent_target_shape hres
      · rw [regGet_regSet_ne _ _ _ _ hn] at hr
        exact ih n r hr

/-! ## Claims -/

/-- C4: an event that is not a container-start event, or lacks a usable
actor identifier, or whose inspection fails, or whose resolution fails
for lack of a network address or of a usable TCP port, leaves the
registry unchanged; the registry changes only when the whole pipeline
succeeds, and then exactly by storing the resolved record under its
name.  (The handler is total, so no event crashes the process.) -/
theorem claim_C4 (inspect : String → Option ContainerInfo)
    (ev : RuntimeEvent) (db : Registry) :
    (¬(ev.Typ = "container" ∧ ev.Action = "start") →
      processEvent inspect ev db = db) ∧
    (ev.ActorID = none ∨ ev.ActorID = some "" →
      processEvent inspect ev db = db) ∧
    (∀ cid, ev.ActorID = some cid → inspect cid = none →
      processEvent inspect ev db = db) ∧
    (∀ cid info, ev.ActorID = some cid → inspect cid = some info →
      firstNetworkIP info.Networks = none →
      processEvent inspect ev db = db) ∧
    (∀ cid info, ev.ActorID = some cid → inspect cid = some info →
      (selectPort (info.ExposedPorts.getD []) = none ∨
       selectPort (info.ExposedPorts.getD []) = some 0) →
      processEvent inspect ev db = db) ∧
    (processEvent inspect ev db ≠ db →
      ∃ r, resolveEvent inspect ev = some r ∧
        regGet (processEvent inspect ev db) r.containerName = some r) := by
  refine ⟨?_, ?_, ?_, ?_, ?_, ?_⟩
  · intro hno
    apply processEvent_of_resolve_none
    cases hres : resolveEvent inspect ev with
    | none => rfl
    | some r =>
      obtain ⟨hT, hA, -⟩ := resolveEvent_some_elim hres
      exact absurd ⟨hT, hA⟩ hno
  · intro hno
    apply processEvent_of_resolve_none
    cases hres : resolveEvent inspect ev with
    | none => rfl
    | some r =>
      obtain ⟨-, -, cid, info, hid, hcid, -, -⟩ := resolveEvent_some_elim hres
      cases hno with
      | inl h1 => rw [h1] at hid; exact absurd hid (by simp)
      | inr h1 =>
        rw [h1] at hid
        exact absurd (Option.some.inj hid).symm hcid
  · intro cid hid hins
    apply processEvent_of_resolve_none
    cases hres : resolveEvent inspect ev with
    | none => rfl
    | some r =>
      obtain ⟨-, -, cid', info', hid', -, hins', -⟩ :=
        resolveEvent_some_elim hres
      rw [hid] at hid'
      cases Option.some.inj hid'
      rw [hins] at hins'
      exact absurd hins' (by simp)
  · intro cid info hid hins hip
    apply processEvent_of_resolve_none
    cases hres : resolveEvent inspect ev with
    | none => rfl
    | some r =>
      obtain ⟨-, -, cid', info', hid', -, hins', hresi⟩ :=
        resolveEvent_some_elim hres
      rw [hid] at hid'
      cases Option.some.inj hid'
      rw [hins] at hins'
      cases Option.some.inj hins'
      rw [resolveInfo_none_of_no_ip info hip] at hresi
      exact absurd hresi (by simp)
  · intro cid info hid hins hport
    apply processEvent_of_resolve_none
    cases hres : resolveEvent inspect ev with
    | none => rfl
    | some r =>
      obtain ⟨-, -, cid', info', hid', -, hins', hresi⟩ :=
        resolveEvent_some_elim hres
      rw [hid] at hid'
      cases Option.some.inj hid'
      rw [hins] at hins'
      cases Option.some.inj hins'
      rw [resolveInfo_none_of_no_port info hport] at hresi
      exact absurd hresi (by simp)
  · intro hch
    cases hres : resolveEvent inspect ev with
    | none => exact absurd (processEvent_of_resolve_none _ _ _ hres) hch
    | some r =>
      refine ⟨r, rfl, ?_⟩
      rw [processEvent_of_resolve_some _ _ _ _ hres, regGet_regSet_self]

/-- C4 witness: a container stop event is discarded and the registry is
untouched. -/
theorem claim_C4_witness :
    processEvent inspectNone evStop regEmpty = regEmpty :=
  (claim_C4 inspectNone evStop regEmpty).1 (by decide)

/-- C5: two successfully processed start events deriving the same name:
the second record fully overwrites the first, and a lookup of that name
afterwards returns exactly the second record. -/
theorem claim_C5 (i1 i2 : String → Option ContainerInfo)
    (e1 e2 : RuntimeEvent) (r1 r2 : ServiceRecord) (db : Registry)
    (h1 : resolveEvent i1 e1 = some r1)
    (h2 : resolveEvent i2 e2 = some r2)
    (hname : r1.containerName = r2.containerName) :
    regGet (processEvent i2 e2 (processEvent i1 e1 db)) r1.containerName =
      some r2 := by
  rw [hname, processEvent_of_resolve_some _ _ _ _ h2, regGet_regSet_self]

/-- C5 witness: web1 first registered at 10.0.0.5:80, then re-registered
at 10.0.0.9:8080; the lookup returns only the second record. -/
theorem claim_C5_witness :
    regGet (processEvent inspectWeb1b evStart2
      (processEvent inspectWeb1 evStart1 regEmpty)) "web1" = some recWeb1b :=
  claim_C5 inspectWeb1 inspectWeb1b evStart1 evStart2 recWeb1 recWeb1b
    regEmpty (by decide) (by decide) rfl

/-- C7: a request whose derived service name is not registered gets the
404 branch: status 404, the exact JSON error body, and no forwarding,
whatever the backend would have done. -/
theorem claim_C7 (db : Registry) (hostname : String) (backendOk : Bool)
    (h : regGet db (firstLabel hostname) = none) :
    handleHttp db hostname backendOk = .notFound ∧
    (handleHttp db hostname backendOk).statusCode = some 404 ∧
    (handleHttp db hostname backendOk).responseBody =
      some (.json "error" "Container not found") := by
  have hh : handleHttp db hostname backendOk = .notFound := by
    simp [handleHttp, h]
  exact ⟨hh, by rw [hh]; rfl, by rw [hh]; rfl⟩

/-- C7 witness: host unknown.localhost against the registry holding only
web1. -/
theorem claim_C7_witness :
    handleHttp dbWeb1 "unknown.localhost" true = RouteResult.notFound :=
  (claim_C7 dbWeb1 "unknown.localhost" true (by decide)).1

/-- C9: no operation removes a registry entry: a name registered before
any sequence of further events is still registered after it (requests do
not touch the registry at all — the request handlers return outcomes and
no registry). -/
theorem claim_C9
    (steps : List ((String → Option ContainerInfo) × RuntimeEvent))
    (db : Registry) (n : String)
    (h : (regGet db n).isSome = true) :
    (regGet (processEvents steps db) n).isSome = true := by
  induction steps generalizing db with
  | nil => exact h
  | cons s rest ih =>
    simp only [processEvents, List.foldl] at *
    apply ih
    cases hres : resolveEvent s.1 s.2 with
    | none => rw [processEvent_of_resolve_none _ _ _ hres]; exact h
    | some r =>
      rw [processEvent_of_resolve_some _ _ _ _ hres]
      by_cases hn : n = r.containerName
      · rw [hn, regGet_regSet_self]; rfl
      · rw [regGet_regSet_ne _ _ _ _ hn]; exact h

/-- C9 witness: web1 stays registered across a later stop event and a
later unrelated start event. -/
theorem claim_C9_witness :
    (regGet (processEvents
      [(inspectNone, evStop), (inspectZeroPort, evStart0)] dbWeb1)
      "web1").isSome = true :=
  claim_C9 [(inspectNone, evStop), (inspectZeroPort, evStart0)] dbWeb1
    "web1" (by decide)

/-- C6: names compose end to end: a successfully resolved container is
registered under its runtime-reported name with the leading slash
stripped, and any request whose host header's first label equals that
name is forwarded to the stored target. -/
theorem claim_C6 (inspect : String → Option ContainerInfo)
    (ev : RuntimeEvent) (cid : String) (info : ContainerInfo)
    (r : ServiceRecord) (db : Registry) (host : String)
    (hid : ev.ActorID = some cid) (hins : inspect cid = some info)
    (hres : resolveEvent inspect ev = some r) :
    r.containerName = stripLeadingSlash info.Name ∧
    (firstLabel host = r.containerName →
      handleHttp (processEvent inspect ev db) host true =
        .forwarded r.target) := by
  obtain ⟨-, -, cid', info', hid', -, hins', hresi⟩ :=
    resolveEvent_some_elim hres
  rw [hid] at hid'
  cases Option.some.inj hid'
  rw [hins] at hins'
  cases Option.some.inj hins'
  obtain ⟨ip, p, -, -, -, hr⟩ := resolveInfo_some_elim hresi
  constructor
  · rw [hr]
  · intro hl
    have hne : r.target ≠ "" := (resolveEvent_target_shape hres).2
    rw [processEvent_of_resolve_some _ _ _ _ hres]
    simp only [handleHttp, hl, regGet_regSet_self]
    simp [hne]

/-- C6 witness: Name "/web1" is registered as web1 and a request for
web1.localhost is forwarded to its target. -/
theorem claim_C6_witness :
    handleHttp (processEvent inspectWeb1 evStart1 regEmpty)
      "web1.localhost" true = RouteResult.forwarded "http://10.0.0.5:80" :=
  (claim_C6 inspectWeb1 evStart1 "c1" infoWeb1 recWeb1 regEmpty
    "web1.localhost" rfl (by decide) (by decide)).2 (by decide)

/-- C8: every failing WebSocket upgrade ends the socket with an explicit
HTTP error line — 400 when the host header is missing or empty, 404 when
the derived name is unknown, 502 when the backend is unreachable (and
also on an empty stored target) — and every upgrade either ends with
such a line or is handed to the proxy, never left hanging. -/
theorem claim_C8 (db : Registry) (host : Option String) (b : Bool) :
    (host = none ∨ host = some "" →
      handleUpgrade db host b = .errLine "HTTP/1.1 400 Bad Request\r\n\r\n") ∧
    (∀ h, host = some h → h ≠ "" → regGet db (firstLabel h) = none →
      handleUpgrade db host b = .errLine "HTTP/1.1 404 Not Found\r\n\r\n") ∧
    (∀ h r, host = some h → h ≠ "" → regGet db (firstLabel h) = some r →
      r.target ≠ "" → b = false →
      handleUpgrade db host b = .errLine "HTTP/1.1 502 Bad Gateway\r\n\r\n") ∧
    (∀ h r, host = some h → h ≠ "" → regGet db (firstLabel h) = some r →
      r.target = "" →
      handleUpgrade db host b = .errLine "HTTP/1.1 502 Bad Gateway\r\n\r\n") ∧
    ((∃ line, handleUpgrade db host b = .errLine line) ∨
     (∃ t, handleUpgrade db host b = .proxiedWS t)) := by
  refine ⟨?_, ?_, ?_, ?_, ?_⟩
  · rintro (rfl | rfl)
    · rfl
    · rfl
  · rintro h rfl hne hget
    simp [handleUpgrade, hne, hget]
  · rintro h r rfl hne hget htne rfl
    simp [handleUpgrade, hne, hget, htne]
  · rintro h r rfl hne hget hte
    simp [handleUpgrade, hne, hget, hte]
  · cases hu : handleUpgrade db host b with
    | errLine line => exact Or.inl ⟨line, rfl⟩
    | proxiedWS t => exact Or.inr ⟨t, rfl⟩

/-- C8 witness: an upgrade request without a host header is answered
with the 400 line. -/
theorem claim_C8_witness :
    handleUpgrade dbWeb1 none true =
      UpgradeResult.errLine "HTTP/1.1 400 Bad Request\r\n\r\n" :=
  (claim_C8 dbWeb1 none true).1 (Or.inl rfl)

/-- C10: in every registry state reachable through discovery alone,
every stored record's target is literally http:// followed by its own
IP, a colon, and its own port (in particular non-empty); hence the HTTP
500 invalid-target branch is never taken, and with a reachable backend
no upgrade is ever answered with the 502 line (which with a live backend
could only come from the empty-target branch). -/
theorem claim_C10 (db : Registry) (hdb : Reachable db) :
    (∀ n r, regGet db n = some r →
      r.target = "http://" ++ r.ipAddress ++ ":" ++ Nat.repr r.defaultPort ∧
      r.target ≠ "") ∧
    (∀ hostname b, handleHttp db hostname b ≠ .invalidTarget) ∧
    (∀ host, handleUpgrade db host true ≠
      .errLine "HTTP/1.1 502 Bad Gateway\r\n\r\n") := by
  refine ⟨reachable_target_shape hdb, ?_, ?_⟩
  · intro hostname b heq
    simp only [handleHttp] at heq
    cases hget : regGet db (firstLabel hostname) with
    | none => simp only [hget] at heq; simp at heq
    | some r =>
      simp only [hget] at heq
      have hne : r.target ≠ "" :=
        (reachable_target_shape hdb _ _ hget).2
      rw [if_neg hne] at heq
      cases b with
      | true => simp at heq
      | false => simp at heq
  · intro host heq
    cases host with
    | none => simp [handleUpgrade] at heq
    | some h =>
      by_cases hh : h = ""
      · rw [hh] at heq
        simp [handleUpgrade] at heq
      · simp only [handleUpgrade] at heq
        rw [if_neg hh] at heq
        cases hget : regGet db (firstLabel h) with
        | none => simp only [hget] at heq; simp at heq
        | some r =>
          simp only [hget] at heq
          have hne : r.target ≠ "" :=
            (reachable_target_shape hdb _ _ hget).2
          rw [if_neg hne] at heq
          simp at heq

/-- C10 witness: one step from the empty registry; the invalid-target
branch is not taken for a request against it. -/
theorem claim_C10_witness :
    handleHttp (processEvent inspectWeb1 evStart1 regEmpty)
      "web1.localhost" true ≠ RouteResult.invalidTarget :=
  (claim_C10 (processEvent inspectWeb1 evStart1 regEmpty)
    (Reachable.step inspectWeb1 evStart1 Reachable.base)).2.1
    "web1.localhost" true

/-- C1 counterexample: inspection succeeds with a usable IP, 80/tcp is
not declared, and the first key ending in /tcp is "0/tcp", whose numeric
prefix is 0; the claim then demands a registered target
http://10.0.0.5:0, but the falsy-port guard makes the handler register
nothing at all. -/
theorem claim_C1_cx :
    inspectZeroPort "c0" = some infoZeroPort ∧
    firstNetworkIP infoZeroPort.Networks = some "10.0.0.5" ∧
    (infoZeroPort.ExposedPorts.getD []).contains "80/tcp" = false ∧
    (infoZeroPort.ExposedPorts.getD []).find?
      (fun k => strEndsWith k "/tcp") = some "0/tcp" ∧
    portKeyNum "0/tcp" = some 0 ∧
    regGet (processEvent inspectZeroPort evStart0 regEmpty)
      (stripLeadingSlash infoZeroPort.Name) = none := by
  decide

/-- C1 (amended): as the claim, except that in the no-80/tcp branch the
numeric prefix of the first /tcp key must moreover be nonzero for
anything to be registered (a prefix of 0, like the absence of any /tcp
key, registers nothing): under that proviso the resolved port and the
registered target are exactly as the claim states. -/
theorem claim_C1_amended (inspect : String → Option ContainerInfo)
    (ev : RuntimeEvent) (cid : String) (info : ContainerInfo)
    (ip : String) (db : Registry)
    (hT : ev.Typ = "container") (hA : ev.Action = "start")
    (hid : ev.ActorID = some cid) (hcid : cid ≠ "")
    (hins : inspect cid = some info)
    (hip : firstNetworkIP info.Networks = some ip) :
    ((info.ExposedPorts.getD []).contains "80/tcp" = true →
      regGet (processEvent inspect ev db) (stripLeadingSlash info.Name) =
        some ⟨stripLeadingSlash info.Name, ip, 80,
              "http://" ++ ip ++ ":" ++ Nat.repr 80⟩) ∧
    (∀ k p, (info.ExposedPorts.getD []).contains "80/tcp" = false →
      (info.ExposedPorts.getD []).find?
        (fun k => strEndsWith k "/tcp") = some k →
      portKeyNum k = some p → p ≠ 0 →
      regGet (processEvent inspect ev db) (stripLeadingSlash info.Name) =
        some ⟨stripLeadingSlash info.Name, ip, p,
              "http://" ++ ip ++ ":" ++ Nat.repr p⟩) := by
  constructor
  · intro h80
    have hport : selectPort (info.ExposedPorts.getD []) = some 80 := by
      unfold selectPort
      rw [h80]
      simp
    have hres : resolveInfo info =
        some ⟨stripLeadingSlash info.Name, ip, 80,
              "http://" ++ ip ++ ":" ++ Nat.repr 80⟩ := by
      unfold resolveInfo
      rw [hip, hport]
      simp
    rw [processEvent_of_resolve_some _ _ _ _
      (resolveEvent_some_intro inspect ev cid info _ hT hA hid hcid hins
        hres)]
    exact regGet_regSet_self _ _ _
  · intro k p h80 hfind hnum hp0
    have hport : selectPort (info.ExposedPorts.getD []) = some p := by
      simp only [selectPort, h80, Bool.false_eq_true, if_false, hfind]
      exact hnum
    have hres : resolveInfo info =
        some ⟨stripLeadingSlash info.Name, ip, p,
              "http://" ++ ip ++ ":" ++ Nat.repr p⟩ := by
      unfold resolveInfo
      simp only [hip, hport]
      rw [if_neg hp0]
    rw [processEvent_of_resolve_some _ _ _ _
      (resolveEvent_some_intro inspect ev cid info _ hT hA hid hcid hins
        hres)]
    exact regGet_regSet_self _ _ _

/-- C1 witness: the spec's concrete scenario — ExposedPorts 80/tcp and
8080/tcp with IP 10.0.0.5 registers web1 at http://10.0.0.5:80. -/
theorem claim_C1_amended_witness :
    regGet (processEvent inspectWeb1 evStart1 regEmpty)
      (stripLeadingSlash infoWeb1.Name) =
      some ⟨stripLeadingSlash infoWeb1.Name, "10.0.0.5", 80,
            "http://" ++ "10.0.0.5" ++ ":" ++ Nat.repr 80⟩ :=
  (claim_C1_amended inspectWeb1 evStart1 "c1" infoWeb1 "10.0.0.5" regEmpty
    rfl rfl rfl (by decide) (by decide) (by decide)).1 (by decide)

/-- C2 counterexample: with a first network carrying no address and a
second one carrying 10.0.0.5, a network does carry an address, yet the
handler derives no IP (it inspects only the first network) and mutates
nothing — refuting the claimed "fails exactly when no attached network
carries an address". -/
theorem claim_C2_cx :
    firstNetworkIP (some netsSecondIP) = none ∧
    netsSecondIP.any carriesIP = true ∧
    regGet (processEvent inspectSecondIP evStart3 regEmpty)
      (stripLeadingSlash infoSecondIP.Name) = none := by
  decide

/-- C2 (amended): the resolver selects as the service IP the address of
the first network in the metadata's network mapping, and resolution
fails for lack of an IP (producing no registry mutation) exactly when
the mapping is absent or empty or its first network carries no non-empty
address; later networks are never consulted. -/
theorem claim_C2_amended (onets : Option (List NetworkInfo)) :
    (∀ n t s, onets = some (n :: t) → n.IPAddress = some s → s ≠ "" →
      firstNetworkIP onets = some s) ∧
    (firstNetworkIP onets = none ↔
      ∀ n t, onets = some (n :: t) → carriesIP n = false) ∧
    (∀ (inspect : String → Option ContainerInfo) ev cid info
        (db : Registry),
      ev.ActorID = some cid → inspect cid = some info →
      firstNetworkIP info.Networks = none →
      processEvent inspect ev db = db) := by
  refine ⟨?_, ?_, ?_⟩
  · rintro n t s rfl h2 h3
    simp [firstNetworkIP, h2, h3]
  · cases onets with
    | none => simp [firstNetworkIP]
    | some l =>
      cases l with
      | nil => simp [firstNetworkIP]
      | cons n t =>
        constructor
        · intro hnone n' t' heq
          obtain ⟨rfl, rfl⟩ :
              n = n' ∧ t = t' := by
            have := Option.some.inj heq
            exact ⟨(List.cons.inj this).1, (List.cons.inj this).2⟩
          cases hip : n.IPAddress with
          | none => simp [carriesIP, hip]
          | some s =>
            simp only [firstNetworkIP, hip] at hnone
            by_cases hs : s = ""
            · simp [carriesIP, hip, hs]
            · rw [if_neg hs] at hnone
              exact absurd hnone (by simp)
        · intro hall
          have hc := hall n t rfl
          cases hip : n.IPAddress with
          | none => simp [firstNetworkIP, hip]
          | some s =>
            simp only [carriesIP, hip, bne_eq_false_iff_eq] at hc
            simp [firstNetworkIP, hip, hc]
  · intro inspect ev cid info db hid hins hipn
    apply processEvent_of_resolve_none
    cases hres : resolveEvent inspect ev with
    | none => rfl
    | some r =>
      obtain ⟨-, -, cid', info', hid', -, hins', hresi⟩ :=
        resolveEvent_some_elim hres
      rw [hid] at hid'
      cases Option.some.inj hid'
      rw [hins] at hins'
      cases Option.some.inj hins'
      rw [resolveInfo_none_of_no_ip info hipn] at hresi
      exact absurd hresi (by simp)

/-- C2 witness: a single network with address 10.0.0.5 is selected. -/
theorem claim_C2_amended_witness :
    firstNetworkIP (some [⟨some "10.0.0.5"⟩]) = some "10.0.0.5" :=
  (claim_C2_amended (some [⟨some "10.0.0.5"⟩])).1
    ⟨some "10.0.0.5"⟩ [] "10.0.0.5" rfl rfl (by decide)

/-- C3 counterexample: a backend connection failure while forwarding for
registered web1 yields status 502 whose body is the plain-text string
"Bad gateway.", not a JSON object of the claimed error shape. -/
theorem claim_C3_cx :
    (handleHttp dbWeb1 "web1.localhost" false).statusCode = some 502 ∧
    (handleHttp dbWeb1 "web1.localhost" false).responseBody =
      some (.text "Bad gateway.") ∧
    isJsonErrorBody
      (handleHttp dbWeb1 "web1.localhost" false).responseBody = false := by
  decide

/-- C3 (amended): the 404 and 500 responses the HTTP listener generates
carry JSON bodies of the error shape (status "error" plus a message
string); the 502 generated on a backend connection failure instead
carries the plain-text body "Bad gateway.". -/
theorem claim_C3_amended (db : Registry) (hostname : String) (b : Bool) :
    ((handleHttp db hostname b).statusCode = some 404 →
      (handleHttp db hostname b).responseBody =
        some (.json "error" "Container not found") ∧
      isJsonErrorBody (handleHttp db hostname b).responseBody = true) ∧
    ((handleHttp db hostname b).statusCode = some 500 →
      (handleHttp db hostname b).responseBody =
        some (.json "error" "Invalid target configuration") ∧
      isJsonErrorBody (handleHttp db hostname b).responseBody = true) ∧
    ((handleHttp db hostname b).statusCode = some 502 →
      (handleHttp db hostname b).responseBody =
        some (.text "Bad gateway.") ∧
      isJsonErrorBody (handleHttp db hostname b).responseBody = false) := by
  cases hr : handleHttp db hostname b <;>
    simp [RouteResult.statusCode, RouteResult.responseBody, isJsonErrorBody]

/-- C3 witness: the 404 of an unknown name carries the JSON error
body. -/
theorem claim_C3_amended_witness :
    (handleHttp dbWeb1 "unknown.localhost" true).responseBody =
      some (HttpBody.json "error" "Container not found") :=
  ((claim_C3_amended dbWeb1 "unknown.localhost" true).1 (by decide)).1

end Nexus
